import Mathlib

/-!
Verification of the `use-temporary-disclosure` React hook.

The repository contains two variants of the hook:
* `src/src/useTemporaryDisclosure/index.ts` — options fields `t` / `callBack`,
  and the returned object additionally contains a property `open`;
* `src/unnamed/part_002` — options fields `duration` / `callback`, returned
  object `{ isOpen, openIn, closeIn, openFor }`.

The hook keeps one boolean flag (`useState(false)`) and schedules delayed
writes to it with `setTimeout`.  We embed this as an explicit machine:
a state holds the flag, a virtual clock, a queue of scheduled tasks and an
event log; `setTimeout(fn, d)` becomes appending a task firing at
`now + clampDelay d`; the browser event loop becomes executing the queued
tasks in order of firing time (ties broken by scheduling order, as the HTML
timer specification prescribes).  Callbacks are opaque, identified by a
natural number; invoking one is recorded in the log.
-/

namespace TemporaryDisclosure

/-- A JavaScript number as far as this code can observe it: either NaN or an
integer (all durations in play are integral). -/
inductive JSNum where
  | nan : JSNum
  | int : Int → JSNum
  deriving Repr, DecidableEq

/-- JavaScript truthiness of a number: `NaN` and `0` are falsy, every other
number is truthy. -/
def JSNum.truthy : JSNum → Bool
  | JSNum.nan => false
  | JSNum.int n => n != 0

/-- The JavaScript expression `d || 0` applied to a possibly-absent number
(`none` models `undefined`): a falsy value is replaced by `0`, any other
value passes through unchanged (so negative numbers pass through). -/
def jsOrZero : Option JSNum → JSNum
  | none => JSNum.int 0
  | some v => if v.truthy then v else JSNum.int 0

/-- The delay `setTimeout` actually uses for a numeric argument: `NaN` and
negative values are clamped to `0`. -/
def clampDelay : JSNum → Nat
  | JSNum.nan => 0
  | JSNum.int n => n.toNat

/-- The effective delay of a scheduled transition: the source passes
`opts.duration || 0` (resp. `opts.t || 0`) to `setTimeout`. -/
def effDelay (d : Option JSNum) : Nat := clampDelay (jsOrZero d)

/-- Options of the `part_002` variant:
`{ duration?: number; callback?: () => void }`.  A callback is opaque and is
identified by a natural number. -/
structure Opts where
  duration : Option JSNum
  callback : Option Nat
  deriving Repr, DecidableEq

/-- Options of the `index.ts` variant: `{ t?: number; callBack?: () => void }`. -/
structure OptsV1 where
  t : Option JSNum
  callBack : Option Nat
  deriving Repr, DecidableEq

/-- A task scheduled with `setTimeout`: at absolute time `fireAt` it writes
`write` to the flag and then invokes `callback` if present.  `seq` is the
scheduling order, used to break ties between tasks with equal `fireAt`. -/
structure Task where
  fireAt : Nat
  seq : Nat
  write : Bool
  callback : Option Nat
  deriving Repr, DecidableEq

/-- Observable events: a write to the flag, or a callback invocation, each
stamped with the virtual time at which it happens. -/
inductive Event where
  | setFlag : Bool → Nat → Event
  | invoke : Nat → Nat → Event
  deriving Repr, DecidableEq

/-- The state of one hook instance together with its timer environment. -/
structure HookState where
  isOpen : Bool
  now : Nat
  nextSeq : Nat
  tasks : List Task
  log : List Event
  deriving Repr, DecidableEq

/-- A fresh instance: `useState<boolean>(false)`, empty timer queue. -/
def initState : HookState :=
  { isOpen := false, now := 0, nextSeq := 0, tasks := [], log := [] }

/-- `setIsOpen b`: writes the flag and records the write in the log. -/
def setIsOpen (b : Bool) (s : HookState) : HookState :=
  { s with isOpen := b, log := s.log ++ [Event.setFlag b s.now] }

/-- `setTimeout(fn, delay)`: registers a task firing `delay` ms from now. -/
def schedule (delay : Nat) (write : Bool) (cb : Option Nat) (s : HookState) :
    HookState :=
  { s with
    nextSeq := s.nextSeq + 1
    tasks := s.tasks ++ [⟨s.now + delay, s.nextSeq, write, cb⟩] }

/-- `openFor` of the `part_002` variant (lines 79–86): synchronously
`setIsOpen(true)`, then `setTimeout` of `setIsOpen(false)` followed by
`opts.callback && opts.callback()`, with delay `opts.duration || 0`. -/
def openFor (opts : Opts) (s : HookState) : HookState :=
  schedule (effDelay opts.duration) false opts.callback (setIsOpen true s)

/-- `action` of the `part_002` variant (lines 88–95): `setTimeout` of
`setIsOpen(nextState)` followed by the optional callback, with delay
`opts.duration || 0`.  No synchronous effect. -/
def action (nextState : Bool) (opts : Opts) (s : HookState) : HookState :=
  schedule (effDelay opts.duration) nextState opts.callback s

/-- `openIn` (line 97): `action(true, opts)`. -/
def openIn (opts : Opts) (s : HookState) : HookState := action true opts s

/-- `closeIn` (lines 98–99): `action(false, opts)`. -/
def closeIn (opts : Opts) (s : HookState) : HookState := action false opts s

/-- `openFor` of the `index.ts` variant (lines 55–62): identical to the
`part_002` variant up to the options field names `t` / `callBack`. -/
def openFor_v1 (opts : OptsV1) (s : HookState) : HookState :=
  schedule (effDelay opts.t) false opts.callBack (setIsOpen true s)

/-- `action` of the `index.ts` variant (lines 68–75). -/
def action_v1 (nextState : Bool) (opts : OptsV1) (s : HookState) : HookState :=
  schedule (effDelay opts.t) nextState opts.callBack s

/-- `openIn` of the `index.ts` variant (line 64). -/
def openIn_v1 (opts : OptsV1) (s : HookState) : HookState := action_v1 true opts s

/-- `closeIn` of the `index.ts` variant (lines 65–66). -/
def closeIn_v1 (opts : OptsV1) (s : HookState) : HookState := action_v1 false opts s

/-- Field renaming between the two options shapes: `t ↦ duration`,
`callBack ↦ callback`. -/
def renameOpts (o : OptsV1) : Opts := ⟨o.t, o.callBack⟩

/-- Insert a task behind every task that fires no later than it: incremental
construction of the firing order (earlier `fireAt` first, ties in scheduling
order). -/
def insertTask (t : Task) : List Task → List Task
  | [] => [t]
  | u :: us => if u.fireAt ≤ t.fireAt then u :: insertTask t us else t :: u :: us

/-- The order in which the event loop fires the queued tasks: ascending
`fireAt`, ties broken by scheduling order (tasks were queued with strictly
increasing `seq`). -/
def fireOrder (ts : List Task) : List Task :=
  ts.foldl (fun acc t => insertTask t acc) []

/-- Execute one fired task: advance the clock to its firing time, write the
flag unconditionally, then invoke the callback if present
(`opts.callback && opts.callback()`). -/
def execTask (s : HookState) (t : Task) : HookState :=
  let s1 := setIsOpen t.write { s with now := t.fireAt }
  match t.callback with
  | some c => { s1 with log := s1.log ++ [Event.invoke c t.fireAt] }
  | none => s1

/-- Run the event loop to quiescence: fire every queued task in order.
Callbacks are opaque, so no task schedules further tasks. -/
def runAll (s : HookState) : HookState :=
  (fireOrder s.tasks).foldl execTask { s with tasks := [] }

/-- The sublist of callback-invocation events of a log. -/
def invocations (l : List Event) : List Event :=
  l.filter fun e => match e with
    | Event.invoke _ _ => true
    | _ => false

/-- Keys of the object returned by `useTemporaryDisclosure` in `part_002`
(lines 101–106): `{ isOpen, openIn, closeIn, openFor }`. -/
def returnKeys_part002 : List String := ["isOpen", "openIn", "closeIn", "openFor"]

/-- Keys of the object returned by `useTemporaryDisclosure` in `index.ts`
(lines 77–83): `{ isOpen, open, openIn, closeIn, openFor }` — the shorthand
`open` resolves to the global `window.open`, not to anything the hook
defines. -/
def returnKeys_indexTs : List String :=
  ["isOpen", "open", "openIn", "closeIn", "openFor"]

/-- Helper: a natural-number duration `d` passes through `opts.duration || 0`
and `setTimeout` unchanged: the effective delay is exactly `d`. -/
theorem effDelay_nat (d : Nat) : effDelay (some (JSNum.int (d : Int))) = d := by
  by_cases h : d = 0
  · subst h
    rfl
  · have h2 : ((d : Int) = 0) ↔ False := by simp [h]
    simp only [effDelay, jsOrZero, clampDelay, JSNum.truthy, bne_iff_ne, ne_eq,
      h2, not_false_eq_true, if_true, Int.toNat_natCast]

/-- Claim C1: `openFor` sets `isOpen` to `true` synchronously; it schedules
exactly one delayed task which, at `effDelay opts.duration` ms, sets `isOpen`
to `false` and then invokes `opts.callback` if present; for a natural
duration `d` the effective delay is exactly `d`, so the flag becomes `false`
no earlier than `d` ms after the call. -/
theorem openFor_spec (opts : Opts) :
    (openFor opts initState).isOpen = true ∧
    (openFor opts initState).tasks =
      [Task.mk (effDelay opts.duration) 0 false opts.callback] ∧
    (runAll (openFor opts initState)).isOpen = false ∧
    (runAll (openFor opts initState)).log =
      [Event.setFlag true 0, Event.setFlag false (effDelay opts.duration)] ++
        (match opts.callback with
          | some c => [Event.invoke c (effDelay opts.duration)]
          | none => []) ∧
    (∀ d : Nat, opts.duration = some (JSNum.int (d : Int)) →
      effDelay opts.duration = d) := by
  obtain ⟨dur, cb⟩ := opts
  refine ⟨rfl, ?_, ?_, ?_, ?_⟩
  · simp [openFor, schedule, setIsOpen, initState]
  · cases cb <;>
      simp [openFor, schedule, setIsOpen, initState, runAll, fireOrder,
        insertTask, execTask]
  · cases cb <;>
      simp [openFor, schedule, setIsOpen, initState, runAll, fireOrder,
        insertTask, execTask]
  · intro d hd
    simp only at hd
    subst hd
    exact effDelay_nat d

/-- Claim C2: `openIn` has no immediate effect on the flag or the log and
schedules one task writing `true`; `closeIn` likewise schedules one task
writing `false`; running the loop applies the write at the effective delay
and then invokes the callback if present. -/
theorem openIn_closeIn_spec (opts : Opts) (s : HookState) :
    (openIn opts s).isOpen = s.isOpen ∧
    (openIn opts s).log = s.log ∧
    (openIn opts s).tasks = s.tasks ++
      [Task.mk (s.now + effDelay opts.duration) s.nextSeq true opts.callback] ∧
    (closeIn opts s).isOpen = s.isOpen ∧
    (closeIn opts s).log = s.log ∧
    (closeIn opts s).tasks = s.tasks ++
      [Task.mk (s.now + effDelay opts.duration) s.nextSeq false opts.callback] ∧
    (runAll (openIn opts initState)).isOpen = true ∧
    (runAll (openIn opts initState)).log =
      [Event.setFlag true (effDelay opts.duration)] ++
        (match opts.callback with
          | some c => [Event.invoke c (effDelay opts.duration)]
          | none => []) ∧
    (runAll (closeIn opts initState)).isOpen = false ∧
    (runAll (closeIn opts initState)).log =
      [Event.setFlag false (effDelay opts.duration)] ++
        (match opts.callback with
          | some c => [Event.invoke c (effDelay opts.duration)]
          | none => []) := by
  obtain ⟨dur, cb⟩ := opts
  refine ⟨rfl, rfl, rfl, rfl, rfl, rfl, ?_, ?_, ?_, ?_⟩ <;>
    cases cb <;>
      simp [openIn, closeIn, action, schedule, setIsOpen, initState, runAll,
        fireOrder, insertTask, execTask]

/-- Claim C3 (evaluation at the failing input): the object returned by the
`index.ts` variant of the factory contains a fifth key `open`, which the
`part_002` variant (and the declared return type) does not have. -/
theorem indexTs_returns_extra_open :
    "open" ∈ returnKeys_indexTs ∧
    returnKeys_indexTs ≠ returnKeys_part002 ∧
    "open" ∉ returnKeys_part002 := by
  refine ⟨?_, ?_, ?_⟩ <;> simp [returnKeys_indexTs, returnKeys_part002]

/-- Claim C4: each operation reads its delay from the `duration` field and
its callback from the `callback` field, and two options values agreeing on
those two fields produce identical behaviour for all three operations. -/
theorem opts_determine_transition (o o' : Opts) (s : HookState)
    (hdur : o.duration = o'.duration) (hcb : o.callback = o'.callback) :
    openFor o s = openFor o' s ∧
    openIn o s = openIn o' s ∧
    closeIn o s = closeIn o' s ∧
    (openIn o s).tasks = s.tasks ++
      [Task.mk (s.now + effDelay o.duration) s.nextSeq true o.callback] ∧
    (closeIn o s).tasks = s.tasks ++
      [Task.mk (s.now + effDelay o.duration) s.nextSeq false o.callback] ∧
    (openFor o s).tasks = s.tasks ++
      [Task.mk (s.now + effDelay o.duration) s.nextSeq false o.callback] := by
  obtain ⟨dur, cb⟩ := o
  obtain ⟨dur', cb'⟩ := o'
  simp only at hdur hcb
  subst hdur
  subst hcb
  exact ⟨rfl, rfl, rfl, rfl, rfl, rfl⟩

/-- Witness for C4 at a concrete input. -/
theorem opts_determine_transition_witness :
    openFor ⟨some (JSNum.int 4), some 1⟩ initState =
      openFor ⟨some (JSNum.int 4), some 1⟩ initState ∧
    openIn ⟨some (JSNum.int 4), some 1⟩ initState =
      openIn ⟨some (JSNum.int 4), some 1⟩ initState ∧
    closeIn ⟨some (JSNum.int 4), some 1⟩ initState =
      closeIn ⟨some (JSNum.int 4), some 1⟩ initState ∧
    (openIn (⟨some (JSNum.int 4), some 1⟩ : Opts) initState).tasks =
      initState.tasks ++
        [Task.mk (initState.now + effDelay (some (JSNum.int 4)))
          initState.nextSeq true (some 1)] ∧
    (closeIn (⟨some (JSNum.int 4), some 1⟩ : Opts) initState).tasks =
      initState.tasks ++
        [Task.mk (initState.now + effDelay (some (JSNum.int 4)))
          initState.nextSeq false (some 1)] ∧
    (openFor (⟨some (JSNum.int 4), some 1⟩ : Opts) initState).tasks =
      initState.tasks ++
        [Task.mk (initState.now + effDelay (some (JSNum.int 4)))
          initState.nextSeq false (some 1)] :=
  opts_determine_transition ⟨some (JSNum.int 4), some 1⟩
    ⟨some (JSNum.int 4), some 1⟩ initState rfl rfl

/-- Claim C5: `openFor {duration := 100, callback := 1}` followed immediately
by `closeIn {duration := 10, callback := 2}`: the flag is `true` right after
the calls; the loop then writes `false` at 10 ms and invokes callback 2,
then writes `false` again at 100 ms and invokes callback 1 — the two tasks
are independent, fire in delay order, and every fired task writes the flag
unconditionally. -/
theorem overlap_lastWriteWins :
    (closeIn ⟨some (JSNum.int 10), some 2⟩
      (openFor ⟨some (JSNum.int 100), some 1⟩ initState)).isOpen = true ∧
    (runAll (closeIn ⟨some (JSNum.int 10), some 2⟩
      (openFor ⟨some (JSNum.int 100), some 1⟩ initState))).log =
      [Event.setFlag true 0, Event.setFlag false 10, Event.invoke 2 10,
        Event.setFlag false 100, Event.invoke 1 100] ∧
    (runAll (closeIn ⟨some (JSNum.int 10), some 2⟩
      (openFor ⟨some (JSNum.int 100), some 1⟩ initState))).isOpen = false ∧
    (∀ (s : HookState) (t : Task), (execTask s t).isOpen = t.write) := by
  refine ⟨rfl, rfl, rfl, ?_⟩
  intro s t
  rcases t with ⟨f, q, w, cb⟩
  cases cb <;> rfl

/-- Claim C6: with no callback supplied, none of the three operations ever
records a callback invocation (and each is a total function: no failure). -/
theorem no_callback_never_invokes (opts : Opts) (h : opts.callback = none) :
    invocations (runAll (openFor opts initState)).log = [] ∧
    invocations (runAll (openIn opts initState)).log = [] ∧
    invocations (runAll (closeIn opts initState)).log = [] := by
  obtain ⟨dur, cb⟩ := opts
  simp only at h
  subst h
  refine ⟨?_, ?_, ?_⟩ <;>
    simp [openFor, openIn, closeIn, action, schedule, setIsOpen, initState,
      runAll, fireOrder, insertTask, execTask, invocations]

/-- Witness for C6 at a concrete input. -/
theorem no_callback_never_invokes_witness :
    invocations (runAll (openFor ⟨some (JSNum.int 3), none⟩ initState)).log = [] ∧
    invocations (runAll (openIn ⟨some (JSNum.int 3), none⟩ initState)).log = [] ∧
    invocations (runAll (closeIn ⟨some (JSNum.int 3), none⟩ initState)).log = [] :=
  no_callback_never_invokes ⟨some (JSNum.int 3), none⟩ rfl

/-- Claim C7: an omitted, zero, or NaN duration yields an effective delay of
0; the transition is still queued as a task firing at the current time (next
available tick) rather than applied during the call — `openIn`/`closeIn`
leave the flag untouched synchronously, and `openFor` queues its close. -/
theorem falsy_duration_spec (opts : Opts) (s : HookState)
    (h : opts.duration = none ∨ opts.duration = some (JSNum.int 0) ∨
      opts.duration = some JSNum.nan) :
    effDelay opts.duration = 0 ∧
    (openIn opts s).isOpen = s.isOpen ∧
    (closeIn opts s).isOpen = s.isOpen ∧
    (openIn opts s).tasks =
      s.tasks ++ [Task.mk s.now s.nextSeq true opts.callback] ∧
    (closeIn opts s).tasks =
      s.tasks ++ [Task.mk s.now s.nextSeq false opts.callback] ∧
    (openFor opts s).isOpen = true ∧
    (openFor opts s).tasks =
      s.tasks ++ [Task.mk s.now s.nextSeq false opts.callback] := by
  obtain ⟨dur, cb⟩ := opts
  simp only at h
  have hz : effDelay dur = 0 := by
    rcases h with h | h | h <;> subst h <;> rfl
  refine ⟨hz, rfl, rfl, ?_, ?_, rfl, ?_⟩ <;>
    simp [openIn, closeIn, openFor, action, schedule, setIsOpen, hz]

/-- Witness for C7 at a concrete input. -/
theorem falsy_duration_spec_witness :
    effDelay (Opts.mk none (some 5)).duration = 0 ∧
    (openIn ⟨none, some 5⟩ initState).isOpen = initState.isOpen ∧
    (closeIn ⟨none, some 5⟩ initState).isOpen = initState.isOpen ∧
    (openIn (⟨none, some 5⟩ : Opts) initState).tasks =
      initState.tasks ++
        [Task.mk initState.now initState.nextSeq true (some 5)] ∧
    (closeIn (⟨none, some 5⟩ : Opts) initState).tasks =
      initState.tasks ++
        [Task.mk initState.now initState.nextSeq false (some 5)] ∧
    (openFor ⟨none, some 5⟩ initState).isOpen = true ∧
    (openFor (⟨none, some 5⟩ : Opts) initState).tasks =
      initState.tasks ++
        [Task.mk initState.now initState.nextSeq false (some 5)] :=
  falsy_duration_spec ⟨none, some 5⟩ initState (Or.inl rfl)

/-- Claim C8: calling `closeIn` on a closed, quiescent instance leaves the
flag `false` both synchronously and after the loop runs, still invokes the
supplied callback at the effective delay, and the scheduled task does not
depend on the current flag value. -/
theorem closeIn_idempotent_flag (opts : Opts) (s : HookState)
    (hclosed : s.isOpen = false) (hquiesce : s.tasks = []) :
    (closeIn opts s).isOpen = false ∧
    (runAll (closeIn opts s)).isOpen = false ∧
    (∀ c, opts.callback = some c →
      Event.invoke c (s.now + effDelay opts.duration) ∈
        (runAll (closeIn opts s)).log) ∧
    (∀ b : Bool,
      (closeIn opts { s with isOpen := b }).tasks = (closeIn opts s).tasks) := by
  obtain ⟨dur, cb⟩ := opts
  refine ⟨hclosed, ?_, ?_, fun b => rfl⟩
  · cases cb <;>
      simp [closeIn, action, schedule, setIsOpen, runAll, fireOrder,
        insertTask, execTask, hquiesce]
  · intro c hc
    simp only at hc
    subst hc
    simp [closeIn, action, schedule, setIsOpen, runAll, fireOrder,
      insertTask, execTask, hquiesce]

/-- Witness for C8 at a concrete input. -/
theorem closeIn_idempotent_flag_witness :
    (closeIn ⟨some (JSNum.int 2), some 9⟩ initState).isOpen = false ∧
    (runAll (closeIn ⟨some (JSNum.int 2), some 9⟩ initState)).isOpen = false ∧
    (∀ c, (Opts.mk (some (JSNum.int 2)) (some 9)).callback = some c →
      Event.invoke c (initState.now + effDelay (some (JSNum.int 2))) ∈
        (runAll (closeIn ⟨some (JSNum.int 2), some 9⟩ initState)).log) ∧
    (∀ b : Bool,
      (closeIn ⟨some (JSNum.int 2), some 9⟩
        { initState with isOpen := b }).tasks =
      (closeIn ⟨some (JSNum.int 2), some 9⟩ initState).tasks) :=
  closeIn_idempotent_flag ⟨some (JSNum.int 2), some 9⟩ initState rfl rfl

/-- Claim C9: a fresh instance starts with `isOpen = false`. -/
theorem initState_isOpen_false : initState.isOpen = false := rfl

/-- Claim C10: the `index.ts` variant and the `part_002` variant are the same
function modulo renaming the options fields (`t` to `duration`, `callBack` to
`callback`): for every options value and every state, each operation produces
the identical successor state (same flag, same scheduled tasks, same log). -/
theorem variants_equivalent (o : OptsV1) (s : HookState) :
    openFor_v1 o s = openFor (renameOpts o) s ∧
    openIn_v1 o s = openIn (renameOpts o) s ∧
    closeIn_v1 o s = closeIn (renameOpts o) s :=
  ⟨rfl, rfl, rfl⟩

end TemporaryDisclosure
